import Mathlib

/-!
Verification of the kuberay ray-operator utility core
(`ray-operator/controllers/ray/utils/util.go` and
`ray-operator/controllers/ray/utils/serve_httpclient.go`).

Go strings are byte strings and the sanitizers index and slice them
bytewise, so a Go string is modelled as `List Nat` (each element a byte
value 0..255).  A Go panic (out-of-range index, nil-pointer dereference)
is modelled by an `Option` result being `none`.
-/

/-- Byte values in 0..255 whose Unicode category is P (punctuation), as in
Go's `unicode.IsPunct` fast path over its Latin-1 `properties` table. -/
def goPunctLatin1 : List Nat :=
  [33, 34, 35, 37, 38, 39, 40, 41, 42, 44, 45, 46, 47, 58, 59, 63, 64,
   91, 92, 93, 95, 123, 125, 161, 167, 171, 182, 183, 187, 191]

/-- Go `unicode.IsPunct(rune(b))` for a byte `b` (only bytes occur here,
since the source indexes Go strings, yielding values below 256). -/
def goIsPunct (c : Nat) : Bool := goPunctLatin1.contains c

/-- Go `unicode.IsDigit(rune(b))` for a byte `b`: only the ASCII digits
are in category Nd below 256. -/
def goIsDigit (c : Nat) : Bool := 48 ≤ c && c ≤ 57

/-- The shared trailing step of `CheckName` and `CheckLabel`:
`if unicode.IsPunct(rune(s[0])) { s = "r" + s[1:] }; return s`.
Indexing the empty string panics, modelled as `none`.  114 is the byte
of the literal character r. -/
def checkLeadingPunct : List Nat → Option (List Nat)
  | [] => none
  | c :: rest => some (if goIsPunct c then 114 :: rest else c :: rest)

/-- The digit step of `CheckName`:
`if unicode.IsDigit(rune(s[0])) { s = "r" + s[1:] }` followed by the
punctuation step on the (possibly rewritten) string. -/
def checkLeadingDigit : List Nat → Option (List Nat)
  | [] => none
  | c :: rest => checkLeadingPunct (if goIsDigit c then 114 :: rest else c :: rest)

/-- `CheckName` from util.go: if `len(s) > 50`, drop the leading
`len(s)-50` bytes (the source computes `offset := int(math.Abs(50 - len))`
and takes `s[offset:]`), then fix a leading digit, then a leading
punctuation character. -/
def CheckName (s : List Nat) : Option (List Nat) :=
  checkLeadingDigit (if s.length > 50 then s.drop (s.length - 50) else s)

/-- `CheckLabel` from util.go: if `len(s) > 63`, keep the trailing 63
bytes, then fix a leading punctuation character only (no digit check in
the source). -/
def CheckLabel (s : List Nat) : Option (List Nat) :=
  checkLeadingPunct (if s.length > 63 then s.drop (s.length - 63) else s)

/-- `rayiov1alpha1.WorkerGroupSpec`, restricted to the fields read by
util.go.  The apis package is outside src; the three counts are pointers
(`*int32`) there — the source dereferences them with `*nodeGroup.X` — so
each is modelled as `Option Int`, `none` meaning unset (nil). -/
structure WorkerGroupSpec where
  Replicas : Option Int
  MinReplicas : Option Int
  MaxReplicas : Option Int

/-- The shared accumulator loop of the three replica aggregators:
`count += *nodeGroup.f` for every group.  Dereferencing an unset (nil)
field panics in Go, modelled as `none`. -/
def replicasLoop (f : WorkerGroupSpec → Option Int) :
    List WorkerGroupSpec → Int → Option Int
  | [], count => some count
  | g :: rest, count =>
    match f g with
    | none => none
    | some v => replicasLoop f rest (count + v)

/-- `CalculateDesiredReplicas` from util.go. -/
def CalculateDesiredReplicas (groups : List WorkerGroupSpec) : Option Int :=
  replicasLoop (fun g => g.Replicas) groups 0

/-- `CalculateMinReplicas` from util.go. -/
def CalculateMinReplicas (groups : List WorkerGroupSpec) : Option Int :=
  replicasLoop (fun g => g.MinReplicas) groups 0

/-- `CalculateMaxReplicas` from util.go. -/
def CalculateMaxReplicas (groups : List WorkerGroupSpec) : Option Int :=
  replicasLoop (fun g => g.MaxReplicas) groups 0

/-- `corev1.Container`, restricted to the fields read by
`PodNotMatchingTemplate`: name, image, and the resource requests and
limits maps.  A `ResourceList` is a map from resource name to a
`Quantity`; `Quantity.Cmp` compares values, modelled by `Int` equality.
The maps are association lists with distinct keys. -/
structure Container where
  Name : String
  Image : String
  Requests : List (String × Int)
  Limits : List (String × Int)

/-- `corev1.Pod`, flattened to the fields read by util.go:
`Status.Phase` (a string), `ObjectMeta.DeletionTimestamp` (nil or a
time), `Spec.Containers`. -/
structure Pod where
  Phase : String
  DeletionTimestamp : Option Int
  Containers : List Container

/-- `corev1.PodTemplateSpec`, restricted to `Spec.Containers`. -/
structure PodTemplateSpec where
  Containers : List Container

/-- Go map lookup `resources2[i][name]` on a ResourceList. -/
def lookupQuantity : List (String × Int) → String → Option Int
  | [], _ => none
  | p :: rest, n => if p.1 == n then some p.2 else lookupQuantity rest n

/-- The inner resource loop of `PodNotMatchingTemplate`: for every entry
of `r1`, the same name must be present in `r2` with a `Cmp`-equal
quantity; any missing or differing entry is a mismatch. -/
def resourceListMismatch (r1 r2 : List (String × Int)) : Bool :=
  r1.any (fun p =>
    match lookupQuantity r2 p.1 with
    | some q2 => !(p.2 == q2)
    | none => true)

/-- The key set of the `cmap` map built by `PodNotMatchingTemplate` over
the pod's containers (Go map insert: a repeated name keeps one key). -/
def buildCmapKeys (containers : List Container) : List String :=
  containers.foldl (fun ks c => if ks.contains c.Name then ks else ks ++ [c.Name]) []

/-- The template loop of `PodNotMatchingTemplate` with the key set of
`cmap` threaded through, ending with the `len(cmap) != 0` check.

In the source the map is built by
`for _, container := range pod.Spec.Containers { cmap[container.Name] = &container }`:
every stored pointer is the address of the single range loop variable,
so after the loop every key of `cmap` dereferences to the LAST element
of `pod.Spec.Containers`.  The successful lookup therefore yields
`podCs.getLast?`, not the same-named container. -/
def templLoop (podCs : List Container) : List Container → List String → Bool
  | [], keys => !keys.isEmpty
  | c1 :: rest, keys =>
    if keys.contains c1.Name then
      match podCs.getLast? with
      | none => true
      | some c2 =>
        if !(c1.Image == c2.Image) then true
        else if !(c1.Requests.length == c2.Requests.length)
            || !(c1.Limits.length == c2.Limits.length) then true
        else if resourceListMismatch c1.Requests c2.Requests
            || resourceListMismatch c1.Limits c2.Limits then true
        else templLoop podCs rest (keys.erase c1.Name)
    else true

/-- `PodNotMatchingTemplate` from util.go: only judges drift for a pod
in the Running phase with no deletion timestamp; first compares
container counts, then runs the name-keyed matching loop. -/
def PodNotMatchingTemplate (pod : Pod) (template : PodTemplateSpec) : Bool :=
  if pod.Phase == "Running" && pod.DeletionTimestamp.isNone then
    if !(template.Containers.length == pod.Containers.length) then true
    else templLoop pod.Containers template.Containers (buildCmapKeys pod.Containers)
  else false

/-- The counting loop of `CalculateAvailableReplicas`: increment for a
pod whose phase is Pending or Running. -/
def availLoop : List Pod → Int → Int
  | [], count => count
  | p :: rest, count =>
    availLoop rest
      (if p.Phase == "Pending" || p.Phase == "Running" then count + 1 else count)

/-- `CalculateAvailableReplicas` from util.go (the `PodList` is its
`Items` slice). -/
def CalculateAvailableReplicas (pods : List Pod) : Int :=
  availLoop pods 0

/-- The result of decoding a serialized configuration blob
(`yaml.Unmarshal` into a `map[string]interface{}`): a generic string-keyed
mapping, modelled as an association list. -/
def YMap : Type := List (String × String)

/-- `rayv1alpha1.RayActorOptionSpec`, the CRD-side (desired-state) actor
options.  The apis package is outside src; the fields are those read by
`ConvertServeConfig`, where `RuntimeEnv` and `Resources` are serialized
text (the source feeds them to `yaml.Unmarshal`). -/
structure V1RayActorOptionSpec where
  RuntimeEnv : String
  NumCpus : Option Float
  NumGpus : Option Float
  Memory : Option Int
  ObjectStoreMemory : Option Int
  Resources : String
  AcceleratorType : String

/-- Modelled from the spec: `rayv1alpha1.ServeConfigSpec`, the CRD-side
desired state of one deployment.  The apis package is outside src; all
fields but one are forced by their reads in `ConvertServeConfig`, and the
spec's data model ("health-check/shutdown timing" on the desired spec)
supplies the remaining `HealthCheckTimeoutS` field, which the source
never reads. -/
structure V1ServeConfigSpec where
  Name : String
  NumReplicas : Option Int
  RoutePrefix : String
  MaxConcurrentQueries : Option Int
  UserConfig : String
  AutoscalingConfig : String
  GracefulShutdownWaitLoopS : Option Int
  GracefulShutdownTimeoutS : Option Int
  HealthCheckPeriodS : Option Int
  HealthCheckTimeoutS : Option Int
  RayActorOptions : V1RayActorOptionSpec

/-- `RayActorOptionSpec` from serve_httpclient.go (the wire object). -/
structure RayActorOptionSpec where
  RuntimeEnv : YMap
  NumCpus : Option Float
  NumGpus : Option Float
  Memory : Option Int
  ObjectStoreMemory : Option Int
  Resources : YMap
  AcceleratorType : String

/-- `ServeConfigSpec` from serve_httpclient.go (the wire object sent to
the dashboard). -/
structure ServeConfigSpec where
  Name : String
  NumReplicas : Option Int
  RoutePrefix : String
  MaxConcurrentQueries : Option Int
  UserConfig : YMap
  AutoscalingConfig : YMap
  GracefulShutdownWaitLoopS : Option Int
  GracefulShutdownTimeoutS : Option Int
  HealthCheckPeriodS : Option Int
  HealthCheckTimeoutS : Option Int
  RayActorOptions : RayActorOptionSpec

/-- The body of `ConvertServeConfig`'s loop for one element.  `decode`
stands for `yaml.Unmarshal` whose error is discarded: a failed decode
(`none`) leaves the freshly made map empty (`[]`).  The wire fields are
given positionally in declaration order; note that the source fills the
wire `HealthCheckTimeoutS` (position 10) from
`config.GracefulShutdownTimeoutS` (serve_httpclient.go line 188). -/
def convertServeConfigElem (decode : String → Option YMap)
    (config : V1ServeConfigSpec) : ServeConfigSpec :=
  ⟨config.Name, config.NumReplicas, config.RoutePrefix,
    config.MaxConcurrentQueries,
    (decode config.UserConfig).getD [],
    (decode config.AutoscalingConfig).getD [],
    config.GracefulShutdownWaitLoopS, config.GracefulShutdownTimeoutS,
    config.HealthCheckPeriodS, config.GracefulShutdownTimeoutS,
    ⟨(decode config.RayActorOptions.RuntimeEnv).getD [],
      config.RayActorOptions.NumCpus, config.RayActorOptions.NumGpus,
      config.RayActorOptions.Memory, config.RayActorOptions.ObjectStoreMemory,
      (decode config.RayActorOptions.Resources).getD [],
      config.RayActorOptions.AcceleratorType⟩⟩

/-- `ConvertServeConfig` from serve_httpclient.go: builds a slice of the
same length whose element `i` is translated from input element `i`. -/
def ConvertServeConfig (decode : String → Option YMap)
    (specs : List V1ServeConfigSpec) : List ServeConfigSpec :=
  specs.map (convertServeConfigElem decode)

/-- `rayv1alpha1.ServeDeploymentGraphSpec`, restricted to the fields
read by `UpdateDeployments` (the apis package is outside src). -/
structure ServeDeploymentGraphSpec where
  ImportPath : String
  RuntimeEnv : String
  ServeConfigSpecs : List V1ServeConfigSpec

/-- `ServingClusterDeployments` from serve_httpclient.go: the request
body sent to the dashboard api server. -/
structure ServingClusterDeployments where
  ImportPath : String
  RuntimeEnv : YMap
  Deployments : List ServeConfigSpec

/-- An `http.Response` as far as `UpdateDeployments` could observe one:
its status code (the body is closed unread). -/
structure HttpResponse where
  StatusCode : Int

/-- The `ServingClusterDeployments` value built inside
`UpdateDeployments`: decode the graph's runtime-environment blob
(error discarded, empty map on failure) and translate the deployment
specs. -/
def newServingClusterDeployments (decode : String → Option YMap)
    (specs : ServeDeploymentGraphSpec) : ServingClusterDeployments :=
  ⟨specs.ImportPath, (decode specs.RuntimeEnv).getD [],
    ConvertServeConfig decode specs.ServeConfigSpecs⟩

/-- `UpdateDeployments` from serve_httpclient.go.  The external effects
are parameters: `marshal` is `json.Marshal`, `newRequest` is
`http.NewRequest` on the marshalled body, `doRequest` is `client.Do`.
Each error is returned as-is; after a successful round trip the response
is dropped (only its body is closed) and `ok ()` (Go `nil`) is
returned — the status code is never read. -/
def UpdateDeployments (Bytes Req E : Type) (decode : String → Option YMap)
    (marshal : ServingClusterDeployments → Except E Bytes)
    (newRequest : Bytes → Except E Req)
    (doRequest : Req → Except E HttpResponse)
    (specs : ServeDeploymentGraphSpec) : Except E Unit :=
  match marshal (newServingClusterDeployments decode specs) with
  | Except.error e => Except.error e
  | Except.ok body =>
    match newRequest body with
    | Except.error e => Except.error e
    | Except.ok req =>
      match doRequest req with
      | Except.error e => Except.error e
      | Except.ok _resp => Except.ok ()

/-- `CompareJsonStruct` from util.go.  The two `json.Marshal` results
and the `json.Unmarshal` decoder are parameters (`marshalA` models
`json.Marshal(objA)` and so on); `deepEqual` is
`reflect.DeepEqual` on the two decoded generic trees.  Every failing
step returns false instead of propagating the error. -/
def CompareJsonStruct (Bytes J E : Type) (marshalA marshalB : Except E Bytes)
    (unmarshalInto : Bytes → Except E J) (deepEqual : J → J → Bool) : Bool :=
  match marshalA with
  | Except.error _ => false
  | Except.ok a =>
    match marshalB with
    | Except.error _ => false
    | Except.ok b =>
      match unmarshalInto a with
      | Except.error _ => false
      | Except.ok v1 =>
        match unmarshalInto b with
        | Except.error _ => false
        | Except.ok v2 => deepEqual v1 v2

/-! Helper lemmas. -/

/-- A byte that is an ASCII digit is not punctuation in Go's tables. -/
theorem goIsDigit_not_goIsPunct (c : Nat) (h : goIsDigit c = true) :
    goIsPunct c = false := by
  have h1 : 48 ≤ c ∧ c ≤ 57 := by
    simpa [goIsDigit, Bool.and_eq_true, decide_eq_true_eq] using h
  obtain ⟨h1, h2⟩ := h1
  interval_cases c <;> decide

/-- Truncating a nonempty byte string to its trailing `n` bytes
(`0 < n`) leaves it nonempty. -/
theorem truncTail_ne_nil (n : Nat) (hn : 0 < n) (s : List Nat) (h : s ≠ []) :
    (if s.length > n then s.drop (s.length - n) else s) ≠ [] := by
  by_cases hl : s.length > n
  · rw [if_pos hl]
    intro hc
    have hlen : (s.drop (s.length - n)).length = n := by
      rw [List.length_drop]; omega
    rw [hc] at hlen
    simp at hlen
    omega
  · rw [if_neg hl]; exact h

/-- The punctuation fix-up succeeds on every nonempty byte string. -/
theorem checkLeadingPunct_isSome (s : List Nat) (h : s ≠ []) :
    (checkLeadingPunct s).isSome = true := by
  cases s with
  | nil => exact absurd rfl h
  | cons c rest => simp [checkLeadingPunct]

/-- The digit-then-punctuation fix-up succeeds on every nonempty byte
string. -/
theorem checkLeadingDigit_isSome (s : List Nat) (h : s ≠ []) :
    (checkLeadingDigit s).isSome = true := by
  cases s with
  | nil => exact absurd rfl h
  | cons c rest =>
    show (checkLeadingPunct _).isSome = true
    by_cases hd : goIsDigit c = true
    · rw [if_pos hd]; exact checkLeadingPunct_isSome _ (by simp)
    · rw [if_neg hd]; exact checkLeadingPunct_isSome _ (by simp)

/-- The counting loop adds to its accumulator the number of pods whose
phase is Pending or Running. -/
theorem availLoop_eq (pods : List Pod) (count : Int) :
    availLoop pods count =
      count + (pods.countP (fun p => p.Phase == "Pending" || p.Phase == "Running") : Nat) := by
  induction pods generalizing count with
  | nil => simp [availLoop]
  | cons p rest ih =>
    by_cases hp : (p.Phase == "Pending" || p.Phase == "Running") = true
    · rw [availLoop, if_pos hp, ih, List.countP_cons, if_pos hp]
      push_cast
      ring
    · rw [availLoop, if_neg hp, ih, List.countP_cons, if_neg hp]
      push_cast
      ring

/-! Claim theorems. -/

/-- Claim C1 (code bug evidence): on a desired spec whose
HealthCheckTimeoutS is 1 and whose GracefulShutdownTimeoutS is 2,
`ConvertServeConfig` fills the wire field HealthCheckTimeoutS with 2,
i.e. with the graceful-shutdown timeout and not with the spec's own
health-check timeout. -/
theorem ConvertServeConfig_health_check_timeout_bug :
    Option.map ServeConfigSpec.HealthCheckTimeoutS
      ((ConvertServeConfig (fun _ => none)
        [⟨"d", none, "", none, "", "", none, some 2, none, some 1,
          ⟨"", none, none, none, none, "", ""⟩⟩]).get? 0) = some (some 2) ∧
    V1ServeConfigSpec.HealthCheckTimeoutS
      ⟨"d", none, "", none, "", "", none, some 2, none, some 1,
        ⟨"", none, none, none, none, "", ""⟩⟩ = some 1 :=
  ⟨rfl, rfl⟩

/-- Claim C2 (code bug evidence): each aggregator fails (nil-pointer
dereference, modelled as `none`) as soon as one group leaves the
corresponding optional field unset, instead of treating it as zero; with
all fields set it does return the sum. -/
theorem CalculateReplicas_unset_field_fails :
    CalculateDesiredReplicas [⟨none, some 0, some 1⟩] = none ∧
    CalculateMinReplicas [⟨some 1, none, some 2⟩] = none ∧
    CalculateMaxReplicas [⟨some 1, some 0, none⟩] = none ∧
    CalculateDesiredReplicas [⟨some 2, some 1, some 4⟩, ⟨some 3, some 2, some 5⟩] = some 5 := by
  refine ⟨rfl, rfl, rfl, ?_⟩
  decide

/-- Claim C3 (code bug evidence): for a running pod with no deletion
timestamp whose container list is identical to the template's (two
containers a and b with distinct images), `PodNotMatchingTemplate`
reports drift, because every entry of its name-keyed map aliases the
range loop variable and hence dereferences to the last pod container;
and conversely it reports no drift when the template's container a has
image y while the pod's container a has image x (a same-named pair whose
images differ). -/
theorem PodNotMatchingTemplate_aliasing_bug :
    PodNotMatchingTemplate
      ⟨"Running", none, [⟨"a", "x", [], []⟩, ⟨"b", "y", [], []⟩]⟩
      ⟨[⟨"a", "x", [], []⟩, ⟨"b", "y", [], []⟩]⟩ = true ∧
    PodNotMatchingTemplate
      ⟨"Running", none, [⟨"a", "x", [], []⟩, ⟨"b", "y", [], []⟩]⟩
      ⟨[⟨"a", "y", [], []⟩, ⟨"b", "y", [], []⟩]⟩ = false := by
  constructor <;> rfl

/-- Claim C8: `CalculateAvailableReplicas` returns exactly the number of
pods whose phase is Pending or Running; pods in any other phase
contribute nothing. -/
theorem CalculateAvailableReplicas_counts (pods : List Pod) :
    CalculateAvailableReplicas pods =
      (pods.countP (fun p => p.Phase == "Pending" || p.Phase == "Running") : Nat) := by
  rw [CalculateAvailableReplicas, availLoop_eq]
  ring

/-- Claim C5 (counterexample): on the two-byte input "1a" (49, 97) the
first character is a digit, yet `CheckLabel` leaves it in place — the
source's label sanitizer has no digit check, so the leading digit is not
replaced with r (114). -/
theorem CheckLabel_keeps_leading_digit :
    goIsDigit 49 = true ∧
    CheckLabel [49, 97] = some [49, 97] ∧
    CheckLabel [49, 97] ≠ some [114, 97] := by
  refine ⟨rfl, rfl, ?_⟩
  decide

/-- Claim C5 (amended): after the length truncation, `CheckLabel`
replaces the first byte with r (114) exactly when it is punctuation; a
leading digit — or any other non-punctuation byte — is left unchanged. -/
theorem CheckLabel_fixes_only_punct (s : List Nat) (c : Nat) (rest : List Nat)
    (h : (if s.length > 63 then s.drop (s.length - 63) else s) = c :: rest) :
    (goIsPunct c = true → CheckLabel s = some (114 :: rest)) ∧
    (goIsPunct c = false → CheckLabel s = some (c :: rest)) ∧
    (goIsDigit c = true → CheckLabel s = some (c :: rest)) := by
  have hbase : CheckLabel s = checkLeadingPunct (c :: rest) := by
    rw [CheckLabel, h]
  refine ⟨?_, ?_, ?_⟩
  · intro hp
    rw [hbase, checkLeadingPunct, if_pos hp]
  · intro hp
    rw [hbase, checkLeadingPunct, if_neg (by simp [hp])]
  · intro hd
    rw [hbase, checkLeadingPunct, if_neg (by simp [goIsDigit_not_goIsPunct c hd])]

/-- Claim C5 (witness): a leading ! (33, punctuation) is replaced with
r, while a leading 1 (49, digit) is kept. -/
theorem CheckLabel_fixes_only_punct_witness :
    CheckLabel [33, 97] = some [114, 97] ∧ CheckLabel [49, 98] = some [49, 98] :=
  ⟨(CheckLabel_fixes_only_punct [33, 97] 33 [97] (by decide)).1 (by decide),
   (CheckLabel_fixes_only_punct [49, 98] 49 [98] (by decide)).2.2 (by decide)⟩

/-- Claim C6: on an input longer than 50 bytes, `CheckName` keeps
exactly the trailing 50 bytes and, when the first byte of that truncated
string is a digit, replaces it with r (114); the result has length 50. -/
theorem CheckName_truncates_then_fixes_digit (s : List Nat) (c : Nat)
    (rest : List Nat) (h1 : s.length > 50)
    (h2 : s.drop (s.length - 50) = c :: rest) (h3 : goIsDigit c = true) :
    CheckName s = some (114 :: rest) ∧ (114 :: rest).length = 50 := by
  have hbase : CheckName s = checkLeadingDigit (c :: rest) := by
    rw [CheckName, if_pos h1, h2]
  have hlen : (114 :: rest).length = 50 := by
    have hd : (s.drop (s.length - 50)).length = 50 := by
      rw [List.length_drop]; omega
    rw [h2] at hd
    simpa using hd
  refine ⟨?_, hlen⟩
  rw [hbase, checkLeadingDigit, if_pos h3, checkLeadingPunct,
    if_neg (by decide)]

/-- Claim C6 (witness): a 51-byte input whose trailing 50 bytes start
with the digit 5 (53) is truncated to those 50 bytes and the digit is
replaced with r. -/
theorem CheckName_truncates_then_fixes_digit_witness :
    CheckName (97 :: 53 :: List.replicate 49 97) =
      some (114 :: List.replicate 49 97) :=
  (CheckName_truncates_then_fixes_digit (97 :: 53 :: List.replicate 49 97) 53
    (List.replicate 49 97) (by decide) (by decide) (by decide)).1

/-- Claim C10: on the empty string both sanitizers fail (the source
indexes s[0], an out-of-range panic, modelled as `none`), while on every
nonempty string both return normally. -/
theorem CheckName_CheckLabel_empty_string :
    CheckName [] = none ∧ CheckLabel [] = none ∧
    (∀ s : List Nat, s ≠ [] →
      (CheckName s).isSome = true ∧ (CheckLabel s).isSome = true) := by
  refine ⟨rfl, rfl, ?_⟩
  intro s hs
  constructor
  · exact checkLeadingDigit_isSome _ (truncTail_ne_nil 50 (by decide) s hs)
  · exact checkLeadingPunct_isSome _ (truncTail_ne_nil 63 (by decide) s hs)

/-- Claim C10 (witness): on the one-byte string "a" (97) both
sanitizers return normally. -/
theorem CheckName_CheckLabel_empty_string_witness :
    (CheckName [97]).isSome = true ∧ (CheckLabel [97]).isSome = true :=
  CheckName_CheckLabel_empty_string.2.2 [97] (by decide)

/-- Claim C4: whenever `json.Marshal`, `http.NewRequest` and the HTTP
round trip all succeed, `UpdateDeployments` returns success, whatever
the response's status code is — the response is never inspected. -/
theorem UpdateDeployments_ignores_status (Bytes Req E : Type)
    (decode : String → Option YMap)
    (marshal : ServingClusterDeployments → Except E Bytes)
    (newRequest : Bytes → Except E Req)
    (doRequest : Req → Except E HttpResponse)
    (specs : ServeDeploymentGraphSpec) (bs : Bytes) (rq : Req)
    (resp : HttpResponse)
    (h1 : marshal (newServingClusterDeployments decode specs) = Except.ok bs)
    (h2 : newRequest bs = Except.ok rq)
    (h3 : doRequest rq = Except.ok resp) :
    UpdateDeployments Bytes Req E decode marshal newRequest doRequest specs =
      Except.ok () := by
  simp [UpdateDeployments, h1, h2, h3]

/-- Claim C4 (witness): with a transport that answers status code 500,
`UpdateDeployments` still returns success. -/
theorem UpdateDeployments_ignores_status_witness :
    UpdateDeployments Nat Nat String (fun _ => none) (fun _ => Except.ok 0)
      (fun _ => Except.ok 1) (fun _ => Except.ok ⟨500⟩) ⟨"", "", []⟩ =
      Except.ok () :=
  UpdateDeployments_ignores_status Nat Nat String (fun _ => none)
    (fun _ => Except.ok 0) (fun _ => Except.ok 1) (fun _ => Except.ok ⟨500⟩)
    ⟨"", "", []⟩ 0 1 ⟨500⟩ rfl rfl rfl

/-- Claim C7: `CompareJsonStruct` returns false — rather than
propagating an error — whenever either marshalling fails or either
marshalled form fails to unmarshal back; it is a total boolean function
by construction. -/
theorem CompareJsonStruct_false_on_failure (Bytes J E : Type)
    (mA mB : Except E Bytes) (um : Bytes → Except E J) (dq : J → J → Bool)
    (h : (∃ e, mA = Except.error e) ∨ (∃ e, mB = Except.error e) ∨
         (∃ a e, mA = Except.ok a ∧ um a = Except.error e) ∨
         (∃ b e, mB = Except.ok b ∧ um b = Except.error e)) :
    CompareJsonStruct Bytes J E mA mB um dq = false := by
  rcases h with ⟨e, he⟩ | ⟨e, he⟩ | ⟨a, e, ha, hua⟩ | ⟨b, e, hb, hub⟩
  · subst he
    simp [CompareJsonStruct]
  · subst he
    cases mA with
    | error ea => simp [CompareJsonStruct]
    | ok a => simp [CompareJsonStruct]
  · subst ha
    cases mB with
    | error eb => simp [CompareJsonStruct]
    | ok b => simp [CompareJsonStruct, hua]
  · subst hb
    cases mA with
    | error ea => simp [CompareJsonStruct]
    | ok a =>
      cases hu : um a with
      | error ea2 => simp [CompareJsonStruct, hu]
      | ok v1 => simp [CompareJsonStruct, hu, hub]

/-- Claim C7 (witness): when the first input's marshalling fails, the
comparison is false. -/
theorem CompareJsonStruct_false_on_failure_witness :
    CompareJsonStruct Nat Nat String (Except.error "bad") (Except.ok 0)
      (fun _ => Except.ok 0) (fun _ _ => true) = false :=
  CompareJsonStruct_false_on_failure Nat Nat String (Except.error "bad")
    (Except.ok 0) (fun _ => Except.ok 0) (fun _ _ => true)
    (Or.inl ⟨"bad", rfl⟩)

/-- Claim C9: `ConvertServeConfig` returns a list of the same length as
its input, whose element i is the translation of input element i, and
which carries each input's Name through unchanged. -/
theorem ConvertServeConfig_shape (decode : String → Option YMap)
    (specs : List V1ServeConfigSpec) :
    (ConvertServeConfig decode specs).length = specs.length ∧
    (∀ i : Nat, (ConvertServeConfig decode specs)[i]? =
      (specs[i]?).map (convertServeConfigElem decode)) ∧
    (∀ i : Nat, Option.map ServeConfigSpec.Name ((ConvertServeConfig decode specs)[i]?) =
      Option.map V1ServeConfigSpec.Name (specs[i]?)) := by
  refine ⟨List.length_map _ _, fun i => ?_, fun i => ?_⟩
  · rw [ConvertServeConfig]
    exact List.getElem?_map _ _ _
  · rw [ConvertServeConfig, List.getElem?_map, Option.map_map]
    rfl
